import Mathlib

/-!
Verification of the interior-point optimization driver of the SAND
topology-optimization program (source/SAND.cc).  Machine doubles are
embedded as exact rationals; the one place where IEEE division by zero
matters (the penalty-multiplier update) uses an explicit extended type.
The finite-element assembler, objective functional and linear solver are
external collaborators of the driver and enter as function parameters.
-/

namespace SAND

/-- Elementwise sum of two vectors (dense vectors are lists of rationals). -/
def vadd (x y : List ℚ) : List ℚ := List.zipWith (· + ·) x y

/-- Scalar multiple of a vector. -/
def vsmul (c : ℚ) (x : List ℚ) : List ℚ := x.map fun a => c * a

/-- deal.II `Vector::is_non_negative`: every component is at least zero. -/
def is_non_negative (v : List ℚ) : Bool := v.all fun a => decide (0 ≤ a)

/-- Strict componentwise positivity of a vector. -/
def is_positive (v : List ℚ) : Bool := v.all fun a => decide (0 < a)

/-- The l1 norm of a dense vector. -/
def l1_norm (v : List ℚ) : ℚ := (v.map fun a => |a|).sum

/-- The l-infinity norm of a dense vector. -/
def linfty_norm (v : List ℚ) : ℚ := (v.map fun a => |a|).foldr max 0

/-- Dot product of two vectors. -/
def dot (x y : List ℚ) : ℚ := (List.zipWith (· * ·) x y).sum

/-- A `BlockVector` over the nine solution blocks of SAND.cc
(order of `SolutionBlocks`). -/
structure BlockVector where
  density : List ℚ
  displacement : List ℚ
  unfiltered_density : List ℚ
  displacement_multiplier : List ℚ
  unfiltered_density_multiplier : List ℚ
  density_lower_slack : List ℚ
  density_lower_slack_multiplier : List ℚ
  density_upper_slack : List ℚ
  density_upper_slack_multiplier : List ℚ
deriving DecidableEq

/-- Blockwise sum of two block vectors. -/
def BlockVector.add (a b : BlockVector) : BlockVector :=
  ⟨vadd a.density b.density,
   vadd a.displacement b.displacement,
   vadd a.unfiltered_density b.unfiltered_density,
   vadd a.displacement_multiplier b.displacement_multiplier,
   vadd a.unfiltered_density_multiplier b.unfiltered_density_multiplier,
   vadd a.density_lower_slack b.density_lower_slack,
   vadd a.density_lower_slack_multiplier b.density_lower_slack_multiplier,
   vadd a.density_upper_slack b.density_upper_slack,
   vadd a.density_upper_slack_multiplier b.density_upper_slack_multiplier⟩

instance : Add BlockVector := ⟨BlockVector.add⟩

/-- Blockwise scalar multiple of a block vector. -/
def BlockVector.smul (c : ℚ) (a : BlockVector) : BlockVector :=
  ⟨vsmul c a.density,
   vsmul c a.displacement,
   vsmul c a.unfiltered_density,
   vsmul c a.displacement_multiplier,
   vsmul c a.unfiltered_density_multiplier,
   vsmul c a.density_lower_slack,
   vsmul c a.density_lower_slack_multiplier,
   vsmul c a.density_upper_slack,
   vsmul c a.density_upper_slack_multiplier⟩

instance : SMul ℚ BlockVector := ⟨BlockVector.smul⟩

/-- deal.II `BlockVector::l1_norm`: sum of the l1 norms of all blocks. -/
def BlockVector.l1_norm (v : BlockVector) : ℚ :=
  SAND.l1_norm v.density + SAND.l1_norm v.displacement +
  SAND.l1_norm v.unfiltered_density + SAND.l1_norm v.displacement_multiplier +
  SAND.l1_norm v.unfiltered_density_multiplier + SAND.l1_norm v.density_lower_slack +
  SAND.l1_norm v.density_lower_slack_multiplier + SAND.l1_norm v.density_upper_slack +
  SAND.l1_norm v.density_upper_slack_multiplier

/-- The fraction-to-boundary value computed at the top of
`calculate_max_step_size` (SAND.cc lines 1331-1343). -/
def fraction_to_boundary (barrier_size : ℚ) : ℚ :=
  if (8 / 10 : ℚ) < 1 - barrier_size then
    (if 1 - barrier_size < (99999 / 100000 : ℚ) then 1 - barrier_size
     else 99999 / 100000)
  else 8 / 10

/-- The `accept_s` test of the binary search in `calculate_max_step_size`:
both slack blocks of `fraction_to_boundary * state + s * step` are
componentwise non-negative (SAND.cc lines 1355-1362). -/
def accept_s (state step : BlockVector) (barrier_size s : ℚ) : Bool :=
  is_non_negative ((fraction_to_boundary barrier_size • state + s • step).density_lower_slack) &&
  is_non_negative ((fraction_to_boundary barrier_size • state + s • step).density_upper_slack)

/-- The `accept_z` test of the binary search in `calculate_max_step_size`:
both slack-multiplier blocks of `fraction_to_boundary * state + z * step`
are componentwise non-negative (SAND.cc lines 1358-1364). -/
def accept_z (state step : BlockVector) (barrier_size z : ℚ) : Bool :=
  is_non_negative ((fraction_to_boundary barrier_size • state + z • step).density_lower_slack_multiplier) &&
  is_non_negative ((fraction_to_boundary barrier_size • state + z • step).density_upper_slack_multiplier)

/-- The 50-iteration bisection loop of `calculate_max_step_size`
(SAND.cc lines 1351-1375): the midpoint replaces the low end when
accepted, the high end otherwise, independently for s and z. -/
def stepLoop (aS aZ : ℚ → Bool) : Nat → ℚ → ℚ → ℚ → ℚ → ℚ × ℚ
  | 0, sl, _, zl, _ => (sl, zl)
  | Nat.succ n, sl, sh, zl, zh =>
    stepLoop aS aZ n
      (if aS ((sl + sh) / 2) then (sl + sh) / 2 else sl)
      (if aS ((sl + sh) / 2) then sh else (sl + sh) / 2)
      (if aZ ((zl + zh) / 2) then (zl + zh) / 2 else zl)
      (if aZ ((zl + zh) / 2) then zh else (zl + zh) / 2)

/-- `calculate_max_step_size` (SAND.cc lines 1327-1378): binary search
starting from the interval [0,1] for both step lengths; returns the pair
of low ends after 50 iterations. -/
def calculate_max_step_size (state step : BlockVector) (barrier_size : ℚ) : ℚ × ℚ :=
  stepLoop (accept_s state step barrier_size) (accept_z state step barrier_size) 50 0 1 0 1

/-- The blockwise-scaled step assembled at the end of `find_max_step`
(SAND.cc lines 1807-1817): primal blocks and slacks scaled by `s`,
multiplier blocks scaled by `z`. -/
def scaled_max_step (step : BlockVector) (s z : ℚ) : BlockVector :=
  ⟨vsmul s step.density,
   vsmul s step.displacement,
   vsmul s step.unfiltered_density,
   vsmul z step.displacement_multiplier,
   vsmul z step.unfiltered_density_multiplier,
   vsmul s step.density_lower_slack,
   vsmul z step.density_lower_slack_multiplier,
   vsmul s step.density_upper_slack,
   vsmul z step.density_upper_slack_multiplier⟩

/-- `calculate_exact_merit` (SAND.cc lines 1685-1747).  The objective is
the boundary traction work, a linear functional of the displacement
block assembled by quadrature over boundary faces; it is represented by
its weight vector `objW`.  The residual-only KKT evaluation
`calculate_test_rhs` is finite-element assembly (an external
collaborator per the driver's interfaces) and enters as the function
parameter `residual_only`.  The four merit contributions are exactly the
ones of lines 1737-1745. -/
def calculate_exact_merit (objW : List ℚ) (residual_only : BlockVector → ℚ → BlockVector)
    (penalty_multiplier : ℚ) (test_solution : BlockVector) (barrier_size : ℚ) : ℚ :=
  let objective_function_merit := dot objW test_solution.displacement
  let test_rhs := residual_only test_solution barrier_size
  let elasticity_constraint_merit := penalty_multiplier * l1_norm test_rhs.displacement_multiplier
  let filter_constraint_merit := penalty_multiplier * l1_norm test_rhs.unfiltered_density_multiplier
  let lower_slack_merit := penalty_multiplier * l1_norm test_rhs.density_lower_slack_multiplier
  let upper_slack_merit := penalty_multiplier * l1_norm test_rhs.density_upper_slack_multiplier
  objective_function_merit + elasticity_constraint_merit + filter_constraint_merit
    + lower_slack_merit + upper_slack_merit

/-- `check_convergence` (SAND.cc lines 1848-1863): the residual-only KKT
evaluation at `(state, barrier_size)` is compared in l1 norm against
`1e-2 * barrier_size`.  The residual computation is external assembly,
passed as `residual_only`. -/
def check_convergence (residual_only : BlockVector → ℚ → BlockVector)
    (state : BlockVector) (barrier_size : ℚ) : Bool :=
  let convergence_condition : ℚ := 1 / 100
  let test_rhs := residual_only state barrier_size
  if test_rhs.l1_norm < convergence_condition * barrier_size then true else false

/-- The `constraint_norm` accumulated in `find_max_step`
(SAND.cc lines 1784-1791): sum of the l-infinity norms of the four
equality-constraint residual blocks. -/
def constraint_norm (rhs : BlockVector) : ℚ :=
  linfty_norm rhs.displacement_multiplier + linfty_norm rhs.unfiltered_density_multiplier +
  linfty_norm rhs.density_lower_slack_multiplier + linfty_norm rhs.density_upper_slack_multiplier

/-- An IEEE-754 double restricted to the values the penalty update can
produce: a finite value (embedded exactly as a rational), the two
infinities, or NaN.  Needed because `find_max_step` divides by
`.05 * constraint_norm` with no guard against zero. -/
inductive Fp where
  | fin : ℚ → Fp
  | pinf : Fp
  | ninf : Fp
  | nan : Fp
deriving DecidableEq

/-- IEEE-754 division of finite doubles: finite quotient when the
divisor is nonzero; `x / +0.0` is `+inf` for `x > 0`, `-inf` for
`x < 0`, and NaN for `0 / 0`. -/
def fpDiv (x y : ℚ) : Fp :=
  if y = 0 then (if 0 < x then Fp.pinf else if x < 0 then Fp.ninf else Fp.nan)
  else Fp.fin (x / y)

/-- IEEE-754 strict greater-than on the extended values: any comparison
involving NaN is false, `+inf > +inf` is false, `-inf` exceeds nothing. -/
def fpGt : Fp → Fp → Bool
  | Fp.fin a, Fp.fin b => decide (b < a)
  | Fp.fin _, Fp.ninf => true
  | Fp.pinf, Fp.fin _ => true
  | Fp.pinf, Fp.ninf => true
  | _, _ => false

/-- The `test_penalty_multiplier` computed in `find_max_step`
(SAND.cc lines 1793-1796) from the curvature part, the gradient part and
the constraint norm of the current Newton step. -/
def test_penalty (hess_part grad_part cn : ℚ) : Fp :=
  if 0 < hess_part then fpDiv (grad_part + (1 / 2) * hess_part) ((5 / 100) * cn)
  else fpDiv grad_part ((5 / 100) * cn)

/-- The penalty-multiplier update of `find_max_step`
(SAND.cc lines 1798-1802): adopt the trial value only when it exceeds
the current one. -/
def update_penalty (penalty_multiplier : Fp) (hess_part grad_part cn : ℚ) : Fp :=
  if fpGt (test_penalty hess_part grad_part cn) penalty_multiplier then
    test_penalty hess_part grad_part cn
  else penalty_multiplier

/-- A sequence of penalty updates, one per `find_max_step` call, each
described by its (hess_part, grad_part, constraint_norm) triple. -/
def run_penalty_updates (penalty_multiplier : Fp) : List (ℚ × ℚ × ℚ) → Fp
  | [] => penalty_multiplier
  | t :: ts => run_penalty_updates (update_penalty penalty_multiplier t.1 t.2.1 t.2.2) ts

/-- The forward-difference estimate of the directional derivative of the
merit along `step` with perturbation 1e-4, as in `take_scaled_step`
(SAND.cc line 1831) and in the watchdog loop (line 2156).  The merit
function of the current barrier subproblem is the parameter `merit`. -/
def merit_derivative (merit : BlockVector → ℚ) (state step : BlockVector) : ℚ :=
  (merit (state + ((1 : ℚ) / 10000) • step) - merit state) / (1 / 10000)

/-- The sufficient-decrease test of `take_scaled_step`
(SAND.cc line 1832). -/
def armijo_test (merit : BlockVector → ℚ) (state step : BlockVector)
    (descent_requirement s : ℚ) : Bool :=
  decide (merit (state + s • step) <
    merit state + s * descent_requirement * merit_derivative merit state step)

/-- The halving loop of `take_scaled_step` (SAND.cc lines 1828-1840):
up to `n` tests, halving the step size after each failed test. -/
def scaled_loop (test : ℚ → Bool) : Nat → ℚ → ℚ
  | 0, s => s
  | Nat.succ n, s => if test s then s else scaled_loop test n (s / 2)

/-- `take_scaled_step` (SAND.cc lines 1824-1843): backtracking line
search starting at step size 1 with at most 10 tests; the state moved by
the resulting multiple of `max_step` is returned.  (The code recomputes
the forward-difference derivative inside the loop; its value does not
depend on the loop variable, so it is hoisted here.) -/
def take_scaled_step (merit : BlockVector → ℚ) (state max_step : BlockVector)
    (descent_requirement : ℚ) : BlockVector :=
  state + scaled_loop (armijo_test merit state max_step descent_requirement) 10 1 • max_step

/-- The barrier-size update at the bottom of the outer loop of `run()`
(SAND.cc lines 2216-2240).  `p` stands for the value `std::pow
(barrier_size, barrier_size_exponent)` with exponent 1.2 computed by the
code (its exact value is irrational; the update logic is independent of
it). -/
def min_barrier_size : ℚ := 1 / 2000

/-- The nested conditional of the barrier update (SAND.cc 2219-2240):
take the smaller of `barrier_size * 0.8` and `p`, floored at
`min_barrier_size`. -/
def update_barrier_size (barrier_size p : ℚ) : ℚ :=
  if barrier_size * (8 / 10) < p then
    (if barrier_size * (8 / 10) < min_barrier_size then min_barrier_size
     else barrier_size * (8 / 10))
  else
    (if p < min_barrier_size then min_barrier_size else p)

/-- The goal merit of a watchdog cycle (SAND.cc lines 2156-2157): merit
of the watchdog state plus `descent_requirement` times the
forward-difference directional derivative along the first (watchdog)
step. -/
def wd_goal (findStep : BlockVector → BlockVector) (merit : BlockVector → ℚ)
    (descent_requirement : ℚ) (start : BlockVector) : ℚ :=
  merit start + descent_requirement * merit_derivative merit start (findStep start)

/-- The speculative uphill loop of the watchdog (SAND.cc lines
2142-2172): advance the current state by a full Newton step
unconditionally, accepting as soon as the merit drops below the goal
merit; returns the final state together with `some (k+1)` (iterations
consumed) on acceptance at 0-based index `k`, or `none` on exhaustion.
`findStep` abstracts `find_max_step` at the current barrier size
(assembly + solve + fraction-to-boundary scaling). -/
def uphill_loop (findStep : BlockVector → BlockVector) (merit : BlockVector → ℚ)
    (goal_merit : ℚ) : Nat → Nat → BlockVector → BlockVector × Option Nat
  | 0, _, current => (current, none)
  | Nat.succ fuel, k, current =>
    if merit (current + findStep current) < goal_merit then
      (current + findStep current, some (k + 1))
    else uphill_loop findStep merit goal_merit fuel (k + 1) (current + findStep current)

/-- One watchdog cycle of `run()` (SAND.cc lines 2135-2209): 8
speculative uphill steps, then the backtracking decision cascade.
Returns the accepted state and the number of iterations added to
`iteration_number`. -/
def watchdog_cycle (findStep : BlockVector → BlockVector) (merit : BlockVector → ℚ)
    (descent_requirement : ℚ) (start : BlockVector) : BlockVector × Nat :=
  match uphill_loop findStep merit (wd_goal findStep merit descent_requirement start) 8 0 start with
  | (st, some k) => (st, k)
  | (current, none) =>
    let stretch_state := take_scaled_step merit current (findStep current) descent_requirement
    if merit current < merit start ∨
        merit stretch_state < wd_goal findStep merit descent_requirement start then
      (stretch_state, 9)
    else if merit start < merit stretch_state then
      (take_scaled_step merit start (findStep start) descent_requirement, 9)
    else
      (take_scaled_step merit stretch_state (findStep stretch_state) descent_requirement, 10)

/-- Strict componentwise positivity of the two slack blocks and the two
slack-multiplier blocks: the interior-point feasibility invariant. -/
def StrictPosSegs (v : BlockVector) : Prop :=
  is_positive v.density_lower_slack = true ∧
  is_positive v.density_upper_slack = true ∧
  is_positive v.density_lower_slack_multiplier = true ∧
  is_positive v.density_upper_slack_multiplier = true

instance (v : BlockVector) : Decidable (StrictPosSegs v) := by
  unfold StrictPosSegs; infer_instance

/-- A block vector whose only nonempty block is a one-component density;
used to build concrete optimization scenarios. -/
def cBV (x : ℚ) : BlockVector := ⟨[x], [], [], [], [], [], [], [], []⟩

/-- A concrete step oracle: every Newton step moves the density
component by one. -/
def cFindStep (_ : BlockVector) : BlockVector := cBV 1

/-- A concrete merit profile over the density component. -/
def cMeritVal (x : ℚ) : ℚ :=
  if x = 0 then 10
  else if x = 1 / 10000 then 5
  else if x = 9 then 7
  else if x = 90001 / 10000 then 7
  else if x = 10 then 0
  else 20

/-- The concrete merit function induced by `cMeritVal`. -/
def cMerit (v : BlockVector) : ℚ :=
  match v.density with
  | [x] => cMeritVal x
  | _ => 0

/-- A second concrete merit profile, dipping below the goal merit at
density 9. -/
def cMeritVal2 (x : ℚ) : ℚ :=
  if x = 0 then 10
  else if x = 1 / 10000 then 5
  else if x = 9 then 4
  else if x = 90001 / 10000 then 4
  else if x = 10 then 0
  else 20

/-- The concrete merit function induced by `cMeritVal2`. -/
def cMerit2 (v : BlockVector) : ℚ :=
  match v.density with
  | [x] => cMeritVal2 x
  | _ => 0

/-- A strictly feasible concrete state: every block has the single
component 1. -/
def wState : BlockVector := ⟨[1], [1], [1], [1], [1], [1], [1], [1], [1]⟩

/-- A concrete step moving every component by -1. -/
def wStep : BlockVector := ⟨[-1], [-1], [-1], [-1], [-1], [-1], [-1], [-1], [-1]⟩

/-- A concrete residual with l1 norm 1/1000. -/
def c7_residual : BlockVector := ⟨[], [], [], [1 / 1000], [], [], [], [], []⟩

/-- An empty concrete state for the convergence check. -/
def c7_state : BlockVector := ⟨[], [], [], [], [], [], [], [], []⟩

/-- A concrete residual whose four equality-constraint blocks are zero
vectors, so its constraint norm vanishes. -/
def zero_residual : BlockVector := ⟨[], [], [], [0], [0], [], [0], [], [0]⟩

/-! ## Theorems -/

/-- Helper: the trial penalty is the finite quotient of the claim's
formula whenever the constraint norm is nonzero. -/
theorem test_penalty_fin (hp gp c : ℚ) (hc : c ≠ 0) :
    test_penalty hp gp c =
      Fp.fin ((if 0 < hp then gp + (1 / 2) * hp else gp) / ((5 / 100) * c)) := by
  have hden : (5 / 100 : ℚ) * c ≠ 0 := mul_ne_zero (by norm_num) hc
  unfold test_penalty fpDiv
  split_ifs with h1 <;> simp [hden]

/-- Helper: with a nonzero constraint norm the update takes the max of
the current penalty and the trial value. -/
theorem update_penalty_fin (ρ hp gp c : ℚ) (hc : c ≠ 0) :
    update_penalty (Fp.fin ρ) hp gp c =
      Fp.fin (max ρ ((if 0 < hp then gp + (1 / 2) * hp else gp) / ((5 / 100) * c))) := by
  unfold update_penalty
  rw [test_penalty_fin hp gp c hc]
  simp only [fpGt, decide_eq_true_eq]
  rcases lt_or_le ρ ((if 0 < hp then gp + (1 / 2) * hp else gp) / ((5 / 100) * c)) with h | h
  · rw [if_pos h, max_eq_right h.le]
  · rw [if_neg (not_lt.mpr h), max_eq_left h]

/-- Helper: a sequence of penalty updates with nonzero constraint norms
keeps the penalty finite and never decreases it. -/
theorem run_penalty_updates_mono (calls : List (ℚ × ℚ × ℚ)) :
    ∀ ρ0 : ℚ, (∀ t ∈ calls, t.2.2 ≠ 0) →
      ∃ ρ1, run_penalty_updates (Fp.fin ρ0) calls = Fp.fin ρ1 ∧ ρ0 ≤ ρ1 := by
  induction calls with
  | nil => exact fun ρ0 _ => ⟨ρ0, rfl, le_refl ρ0⟩
  | cons t ts ih =>
    intro ρ0 hall
    have hc : t.2.2 ≠ 0 := hall t (List.mem_cons_self t ts)
    have hstep := update_penalty_fin ρ0 t.1 t.2.1 t.2.2 hc
    obtain ⟨ρ1, heq, hle⟩ :=
      ih (max ρ0 ((if 0 < t.1 then t.2.1 + (1 / 2) * t.1 else t.2.1) / ((5 / 100) * t.2.2)))
        (fun u hu => hall u (List.mem_cons_of_mem t hu))
    refine ⟨ρ1, ?_, le_trans (le_max_left _ _) hle⟩
    rw [run_penalty_updates, hstep, heq]

/-- C4: each penalty update computes the trial value
`(grad + 0.5*hess)/(0.05*cn)` when `hess > 0` and `grad/(0.05*cn)`
otherwise, adopts it only when it exceeds the current penalty (so the
update is a max), and across any sequence of updater calls with nonzero
constraint norm the penalty multiplier is monotonically non-decreasing. -/
theorem penalty_update_ratchet :
    (∀ hp gp c : ℚ, c ≠ 0 →
       test_penalty hp gp c =
         Fp.fin ((if 0 < hp then gp + (1 / 2) * hp else gp) / ((5 / 100) * c))) ∧
    (∀ ρ hp gp c : ℚ, c ≠ 0 →
       update_penalty (Fp.fin ρ) hp gp c =
         Fp.fin (max ρ ((if 0 < hp then gp + (1 / 2) * hp else gp) / ((5 / 100) * c)))) ∧
    (∀ (ρ0 : ℚ) (calls : List (ℚ × ℚ × ℚ)), (∀ t ∈ calls, t.2.2 ≠ 0) →
       ∃ ρ1, run_penalty_updates (Fp.fin ρ0) calls = Fp.fin ρ1 ∧ ρ0 ≤ ρ1) :=
  ⟨test_penalty_fin, update_penalty_fin, fun ρ0 calls h => run_penalty_updates_mono calls ρ0 h⟩

/-- C4 witness: a concrete update with nonzero constraint norm and a
concrete one-call sequence. -/
theorem penalty_update_ratchet_witness :
    ((1 : ℚ) ≠ 0) ∧
    update_penalty (Fp.fin 1) 2 3 1 =
      Fp.fin (max 1 ((if (0 : ℚ) < 2 then 3 + (1 / 2) * 2 else 3) / ((5 / 100) * 1))) ∧
    (∃ ρ1, run_penalty_updates (Fp.fin 1) [(2, 3, 1)] = Fp.fin ρ1 ∧ (1 : ℚ) ≤ ρ1) :=
  ⟨by norm_num,
   penalty_update_ratchet.2.1 1 2 3 1 (by norm_num),
   penalty_update_ratchet.2.2 1 [(2, 3, 1)] (by norm_num)⟩

/-- Helper: IEEE division of a finite value by zero. -/
theorem fpDiv_zero (x : ℚ) :
    fpDiv x 0 = (if 0 < x then Fp.pinf else if x < 0 then Fp.ninf else Fp.nan) := by
  unfold fpDiv
  rw [if_pos rfl]

/-- Helper: the penalty update at zero constraint norm blows up to
`+inf` exactly when the trial numerator is positive, and is a no-op
otherwise. -/
theorem update_penalty_zero_cn (ρ hp gp : ℚ) :
    update_penalty (Fp.fin ρ) hp gp 0 =
      (if 0 < (if 0 < hp then gp + (1 / 2) * hp else gp) then Fp.pinf else Fp.fin ρ) := by
  have hnum : test_penalty hp gp 0 = fpDiv (if 0 < hp then gp + (1 / 2) * hp else gp) 0 := by
    unfold test_penalty
    split_ifs with h <;> simp [h]
  unfold update_penalty
  rw [hnum, fpDiv_zero]
  by_cases h : 0 < (if 0 < hp then gp + (1 / 2) * hp else gp)
  · simp only [h, if_true]
    simp [fpGt]
  · simp only [h, if_false]
    by_cases h2 : (if 0 < hp then gp + (1 / 2) * hp else gp) < 0
    · simp only [h2, if_true]
      simp [fpGt]
    · simp only [h2, if_false]
      simp [fpGt]

/-- C9 counterexample: with a residual whose equality-constraint blocks
all vanish the constraint norm is 0, and the update is not skipped: with
`hess_part = 0` and `grad_part = 1` the trial is `1 / 0.0 = +inf`, which
passes the `>` test, so the penalty multiplier is replaced by `+inf`
instead of staying at its old value 1. -/
theorem penalty_update_not_skipped_at_zero_constraint :
    constraint_norm zero_residual = 0 ∧
    update_penalty (Fp.fin 1) 0 1 (constraint_norm zero_residual) = Fp.pinf ∧
    Fp.pinf ≠ Fp.fin 1 := by
  have h0 : constraint_norm zero_residual = 0 := by
    norm_num [constraint_norm, zero_residual, linfty_norm]
  refine ⟨h0, ?_, by simp⟩
  rw [h0, update_penalty_zero_cn]
  norm_num

/-- C9 amended: when the constraint norm is 0 no error is raised (the
update is a total function); the penalty multiplier is left unchanged
exactly when the trial numerator is non-positive (the IEEE quotient is
then `-inf` or NaN and fails the `>` test), and when the numerator is
positive the trial is `+inf` and the penalty multiplier becomes `+inf`. -/
theorem penalty_update_zero_constraint_spec (ρ hp gp : ℚ) :
    ((if 0 < hp then gp + (1 / 2) * hp else gp) ≤ 0 →
       update_penalty (Fp.fin ρ) hp gp 0 = Fp.fin ρ) ∧
    (0 < (if 0 < hp then gp + (1 / 2) * hp else gp) →
       update_penalty (Fp.fin ρ) hp gp 0 = Fp.pinf) := by
  constructor
  · intro hnum
    rw [update_penalty_zero_cn, if_neg (not_lt.mpr hnum)]
  · intro hnum
    rw [update_penalty_zero_cn, if_pos hnum]

/-- C9 amended witness: a non-positive numerator leaves the penalty at
1; a positive numerator sends it to `+inf`. -/
theorem penalty_update_zero_constraint_spec_witness :
    update_penalty (Fp.fin 1) 0 (-1) 0 = Fp.fin 1 ∧
    update_penalty (Fp.fin 1) 0 1 0 = Fp.pinf :=
  ⟨(penalty_update_zero_constraint_spec 1 0 (-1)).1 (by norm_num),
   (penalty_update_zero_constraint_spec 1 0 1).2 (by norm_num)⟩

/-- C6: the fraction-to-boundary value equals
`max(0.8, min(1 - barrier_size, 0.99999))` for every barrier size, and
in particular barrier 25 gives 0.8, barrier 0.1 gives 0.9 and barrier
0.0005 gives 0.9995. -/
theorem fraction_to_boundary_spec :
    (∀ b : ℚ, fraction_to_boundary b = max (8 / 10) (min (1 - b) (99999 / 100000))) ∧
    fraction_to_boundary 25 = 8 / 10 ∧
    fraction_to_boundary (1 / 10) = 9 / 10 ∧
    fraction_to_boundary (1 / 2000) = 9995 / 10000 := by
  refine ⟨fun b => ?_, by norm_num [fraction_to_boundary], by norm_num [fraction_to_boundary],
    by norm_num [fraction_to_boundary]⟩
  unfold fraction_to_boundary
  split_ifs with h1 h2
  · rw [min_eq_left h2.le, max_eq_right h1.le]
  · rw [min_eq_right (not_lt.mp h2), max_eq_right (by norm_num)]
  · have h3 : 1 - b ≤ 8 / 10 := not_lt.mp h1
    rw [min_eq_left (by linarith), max_eq_left (by linarith)]

/-- Helper: the barrier update is the claimed max-min expression. -/
theorem update_barrier_size_eq (b p : ℚ) :
    update_barrier_size b p = max (min (b * (8 / 10)) p) min_barrier_size := by
  unfold update_barrier_size
  split_ifs with h1 h2 h3
  · rw [min_eq_left h1.le, max_eq_right h2.le]
  · rw [min_eq_left h1.le, max_eq_left (not_lt.mp h2)]
  · rw [min_eq_right (not_lt.mp h1), max_eq_right h3.le]
  · rw [min_eq_right (not_lt.mp h1), max_eq_left (not_lt.mp h3)]

/-- C5: after each converged inner loop the barrier size becomes
`max(min(barrier_size * 0.8, p), min_barrier_size)` where `p` is the
computed value of `barrier_size ^ 1.2`, and whenever the old barrier
size is at least the floor `min_barrier_size = 5e-4` the new one stays
at least the floor and does not exceed the old value (monotone
non-increase, bounded below). -/
theorem update_barrier_size_spec :
    (∀ b p : ℚ, update_barrier_size b p = max (min (b * (8 / 10)) p) min_barrier_size) ∧
    (∀ b p : ℚ, min_barrier_size ≤ b →
       min_barrier_size ≤ update_barrier_size b p ∧ update_barrier_size b p ≤ b) := by
  refine ⟨update_barrier_size_eq, fun b p hb => ?_⟩
  have hb0 : (0 : ℚ) ≤ b := le_trans (by norm_num [min_barrier_size]) hb
  rw [update_barrier_size_eq]
  constructor
  · exact le_max_right _ _
  · apply max_le _ hb
    apply le_trans (min_le_left _ _)
    linarith

/-- C5 witness: one concrete barrier update from barrier size 25. -/
theorem update_barrier_size_spec_witness :
    min_barrier_size ≤ (25 : ℚ) ∧
    min_barrier_size ≤ update_barrier_size 25 47 ∧ update_barrier_size 25 47 ≤ 25 :=
  ⟨by norm_num [min_barrier_size],
   (update_barrier_size_spec.2 25 47 (by norm_num [min_barrier_size])).1,
   (update_barrier_size_spec.2 25 47 (by norm_num [min_barrier_size])).2⟩

/-- C3: the exact merit is the objective (a linear functional of the
displacement block, given by its weight vector) plus the penalty
multiplier times the sum of the l1 norms of the four Lagrange-multiplier
blocks of the residual-only evaluation at the test solution. -/
theorem calculate_exact_merit_spec (objW : List ℚ)
    (residual_only : BlockVector → ℚ → BlockVector) (ρ : ℚ) (ts : BlockVector) (b : ℚ) :
    calculate_exact_merit objW residual_only ρ ts b =
      dot objW ts.displacement +
        ρ * (l1_norm (residual_only ts b).displacement_multiplier +
             l1_norm (residual_only ts b).unfiltered_density_multiplier +
             l1_norm (residual_only ts b).density_lower_slack_multiplier +
             l1_norm (residual_only ts b).density_upper_slack_multiplier) := by
  unfold calculate_exact_merit
  ring

/-- C7: `check_convergence` is true exactly when the l1 norm of the
residual-only evaluation is below `1e-2 * barrier_size`; a residual of
l1 norm 0.001 converges at barrier size 0.2 but not at 0.05. -/
theorem check_convergence_spec :
    (∀ (residual_only : BlockVector → ℚ → BlockVector) (state : BlockVector) (b : ℚ),
       check_convergence residual_only state b = true ↔
         (residual_only state b).l1_norm < (1 / 100) * b) ∧
    c7_residual.l1_norm = 1 / 1000 ∧
    check_convergence (fun _ _ => c7_residual) c7_state (2 / 10) = true ∧
    check_convergence (fun _ _ => c7_residual) c7_state (5 / 100) = false := by
  have hiff : ∀ (residual_only : BlockVector → ℚ → BlockVector) (state : BlockVector) (b : ℚ),
      check_convergence residual_only state b = true ↔
        (residual_only state b).l1_norm < (1 / 100) * b := by
    intro residual_only state b
    simp only [check_convergence]
    split_ifs with h
    · simpa using h
    · simp only [Bool.false_eq_true, false_iff, not_lt]
      simpa using not_lt.mp h
  have hnorm : c7_residual.l1_norm = 1 / 1000 := by
    norm_num [c7_residual, BlockVector.l1_norm, l1_norm, abs_of_nonneg]
  refine ⟨hiff, hnorm, ?_, ?_⟩
  · rw [hiff]
    rw [hnorm]
    norm_num
  · rw [Bool.eq_false_iff]
    intro hcontra
    rw [hiff] at hcontra
    rw [hnorm] at hcontra
    norm_num at hcontra

/-- Helper: the halving loop returns the first tested step size passing
the test, or the once-more-halved size on exhaustion: the result is
`s0 / 2^k` for some `k ≤ n`, all sizes tested before it failed, and if
the loop did not exhaust its `n` tests then the returned size passed. -/
theorem scaled_loop_spec (test : ℚ → Bool) :
    ∀ (n : Nat) (s0 : ℚ), ∃ k : Nat, k ≤ n ∧ scaled_loop test n s0 = s0 / 2 ^ k ∧
      (∀ j, j < k → test (s0 / 2 ^ j) = false) ∧ (k < n → test (s0 / 2 ^ k) = true) := by
  intro n
  induction n with
  | zero =>
    intro s0
    refine ⟨0, le_refl 0, by simp [scaled_loop], ?_, ?_⟩
    · intro j hj
      exact absurd hj (Nat.not_lt_zero j)
    · intro h
      exact absurd h (lt_irrefl 0)
  | succ n ih =>
    intro s0
    by_cases h : test s0 = true
    · refine ⟨0, Nat.zero_le _, ?_, ?_, ?_⟩
      · simp [scaled_loop, h]
      · intro j hj
        exact absurd hj (Nat.not_lt_zero j)
      · intro _
        simpa using h
    · have hfalse : test s0 = false := by
        rw [Bool.eq_false_iff]
        exact h
      obtain ⟨k, hk, heq, hfail, hpass⟩ := ih (s0 / 2)
      have hpow : ∀ m : Nat, s0 / 2 / 2 ^ m = s0 / 2 ^ (m + 1) := by
        intro m
        rw [div_div, ← pow_succ']
      refine ⟨k + 1, Nat.succ_le_succ hk, ?_, ?_, ?_⟩
      · rw [show scaled_loop test (Nat.succ n) s0 = scaled_loop test n (s0 / 2) by
          simp [scaled_loop, hfalse], heq, hpow]
      · intro j hj
        cases j with
        | zero => simpa using hfalse
        | succ j =>
          rw [← hpow]
          exact hfail j (Nat.lt_of_succ_lt_succ hj)
      · intro hlt
        rw [← hpow]
        exact hpass (Nat.lt_of_succ_lt_succ hlt)

/-- C8: `take_scaled_step` returns `state + step_size * step` where the
step size starts at 1 and is halved after each of at most 10 failed
sufficient-decrease tests; the first passing size is used, and if none
of the 10 tested sizes passes, the smallest size produced by the
halvings (`2^-10`) is used and the function still returns normally. -/
theorem take_scaled_step_spec (merit : BlockVector → ℚ) (state max_step : BlockVector)
    (descent_requirement : ℚ) :
    ∃ k : Nat, k ≤ 10 ∧
      take_scaled_step merit state max_step descent_requirement =
        state + ((1 : ℚ) / 2 ^ k) • max_step ∧
      (∀ j, j < k →
        armijo_test merit state max_step descent_requirement (1 / 2 ^ j) = false) ∧
      (k < 10 →
        armijo_test merit state max_step descent_requirement (1 / 2 ^ k) = true) := by
  obtain ⟨k, hk, heq, hfail, hpass⟩ :=
    scaled_loop_spec (armijo_test merit state max_step descent_requirement) 10 1
  refine ⟨k, hk, ?_, hfail, hpass⟩
  rw [take_scaled_step, heq]

/-- Helper: the backtracking step is the state moved by a scalar
multiple of the step with factor in (0, 1]. -/
theorem take_scaled_step_form (merit : BlockVector → ℚ) (state max_step : BlockVector)
    (descent_requirement : ℚ) :
    ∃ s : ℚ, 0 < s ∧ s ≤ 1 ∧
      take_scaled_step merit state max_step descent_requirement = state + s • max_step := by
  obtain ⟨k, hk, heq, hfail, hpass⟩ :=
    scaled_loop_spec (armijo_test merit state max_step descent_requirement) 10 1
  have hpow : (1 : ℚ) ≤ 2 ^ k := by
    simpa using pow_le_pow_right₀ (by norm_num : (1 : ℚ) ≤ 2) (Nat.zero_le k)
  refine ⟨1 / 2 ^ k, by positivity, ?_, ?_⟩
  · rw [div_le_one (by positivity)]
    exact hpow
  · rw [take_scaled_step, heq]

/-- Helper: invariant of the bisection loop: if the low ends are
accepted values in [0,1] below the high ends, the returned pair consists
of accepted values in [0,1]. -/
theorem stepLoop_spec (aS aZ : ℚ → Bool) :
    ∀ (n : Nat) (sl sh zl zh : ℚ),
      0 ≤ sl → sl ≤ sh → sh ≤ 1 → aS sl = true →
      0 ≤ zl → zl ≤ zh → zh ≤ 1 → aZ zl = true →
      0 ≤ (stepLoop aS aZ n sl sh zl zh).1 ∧ (stepLoop aS aZ n sl sh zl zh).1 ≤ 1 ∧
        aS (stepLoop aS aZ n sl sh zl zh).1 = true ∧
        0 ≤ (stepLoop aS aZ n sl sh zl zh).2 ∧ (stepLoop aS aZ n sl sh zl zh).2 ≤ 1 ∧
        aZ (stepLoop aS aZ n sl sh zl zh).2 = true := by
  intro n
  induction n with
  | zero =>
    intro sl sh zl zh h1 h2 h3 h4 h5 h6 h7 h8
    exact ⟨h1, le_trans h2 h3, h4, h5, le_trans h6 h7, h8⟩
  | succ n ih =>
    intro sl sh zl zh h1 h2 h3 h4 h5 h6 h7 h8
    simp only [stepLoop]
    cases hS : aS ((sl + sh) / 2) <;> cases hZ : aZ ((zl + zh) / 2) <;>
      simp only [hS, hZ, if_true, if_false, Bool.false_eq_true] <;>
      apply ih <;>
      first
        | assumption
        | linarith

/-- Helper: scaling a strictly positive vector by a positive factor and
adding a zero multiple of any step leaves it componentwise non-negative. -/
theorem is_non_negative_zero_step (τ : ℚ) (hτ : 0 < τ) :
    ∀ (x y : List ℚ), is_positive x = true →
      is_non_negative (vadd (vsmul τ x) (vsmul 0 y)) = true := by
  intro x
  induction x with
  | nil =>
    intro y _
    cases y <;> simp [vadd, vsmul, is_non_negative]
  | cons a x ih =>
    intro y hx
    cases y with
    | nil => simp [vadd, vsmul, is_non_negative]
    | cons bq y =>
      simp only [is_positive, List.all_cons, Bool.and_eq_true, decide_eq_true_eq] at hx
      simp only [vadd, vsmul, List.map_cons, List.zipWith_cons_cons, is_non_negative,
        List.all_cons, Bool.and_eq_true, decide_eq_true_eq]
      constructor
      · nlinarith [hx.1]
      · simpa [vadd, vsmul, is_non_negative] using ih y hx.2

/-- Helper key inequality: if the fraction-to-boundary-shifted state
plus the scaled step is non-negative, then the state plus any (0,1]
fraction of the scaled step is strictly positive, componentwise. -/
theorem is_positive_convex_step (τ s σ : ℚ) (hτ0 : 0 < τ) (hτ1 : τ < 1)
    (hσ0 : 0 < σ) (hσ1 : σ ≤ 1) :
    ∀ (x y : List ℚ), is_positive x = true →
      is_non_negative (vadd (vsmul τ x) (vsmul s y)) = true →
      is_positive (vadd x (vsmul σ (vsmul s y))) = true := by
  intro x
  induction x with
  | nil =>
    intro y _ _
    cases y <;> simp [vadd, vsmul, is_positive]
  | cons a x ih =>
    intro y hx hnn
    cases y with
    | nil => simp [vadd, vsmul, is_positive]
    | cons bq y =>
      simp only [is_positive, List.all_cons, Bool.and_eq_true, decide_eq_true_eq] at hx
      simp only [vadd, vsmul, List.map_cons, List.zipWith_cons_cons, is_non_negative,
        List.all_cons, Bool.and_eq_true, decide_eq_true_eq] at hnn
      simp only [vadd, vsmul, List.map_cons, List.zipWith_cons_cons, is_positive,
        List.all_cons, Bool.and_eq_true, decide_eq_true_eq]
      constructor
      · have e1 : 0 ≤ σ * (τ * a + s * bq) := mul_nonneg hσ0.le hnn.1
        have e2 : σ * τ ≤ τ := mul_le_of_le_one_left hτ0.le hσ1
        have e3 : σ * τ * a ≤ τ * a := mul_le_mul_of_nonneg_right e2 hx.1.le
        nlinarith [e1, e3, mul_pos hx.1 (sub_pos.mpr hτ1)]
      · have hrec := ih y hx.2 (by
          simpa [vadd, vsmul, is_non_negative] using hnn.2)
        simpa [vadd, vsmul, is_positive] using hrec

/-- Helper: the fraction-to-boundary value always lies in
[0.8, 0.99999]. -/
theorem fraction_to_boundary_bounds (b : ℚ) :
    8 / 10 ≤ fraction_to_boundary b ∧ fraction_to_boundary b ≤ 99999 / 100000 := by
  unfold fraction_to_boundary
  split_ifs with h1 h2
  · constructor <;> linarith
  · constructor <;> norm_num
  · constructor <;> norm_num

/-- Helper: a strictly feasible state passes both acceptance tests at
step size 0. -/
theorem accept_zero (state step : BlockVector) (b : ℚ) (hpos : StrictPosSegs state) :
    accept_s state step b 0 = true ∧ accept_z state step b 0 = true := by
  have hτ : 0 < fraction_to_boundary b :=
    lt_of_lt_of_le (by norm_num) (fraction_to_boundary_bounds b).1
  obtain ⟨hls, hus, hlm, hum⟩ := hpos
  constructor
  · unfold accept_s
    rw [Bool.and_eq_true]
    exact ⟨is_non_negative_zero_step _ hτ _ _ hls, is_non_negative_zero_step _ hτ _ _ hus⟩
  · unfold accept_z
    rw [Bool.and_eq_true]
    exact ⟨is_non_negative_zero_step _ hτ _ _ hlm, is_non_negative_zero_step _ hτ _ _ hum⟩

/-- Helper: full functional specification of `calculate_max_step_size`
on strictly feasible states: the returned pair lies in [0,1] x [0,1] and
passes both acceptance tests. -/
theorem max_step_size_props (state step : BlockVector) (b : ℚ) (hpos : StrictPosSegs state) :
    0 ≤ (calculate_max_step_size state step b).1 ∧
      (calculate_max_step_size state step b).1 ≤ 1 ∧
      0 ≤ (calculate_max_step_size state step b).2 ∧
      (calculate_max_step_size state step b).2 ≤ 1 ∧
      accept_s state step b (calculate_max_step_size state step b).1 = true ∧
      accept_z state step b (calculate_max_step_size state step b).2 = true := by
  obtain ⟨hS0, hZ0⟩ := accept_zero state step b hpos
  have h := stepLoop_spec (accept_s state step b) (accept_z state step b) 50 0 1 0 1
    (le_refl 0) zero_le_one le_rfl hS0 (le_refl 0) zero_le_one le_rfl hZ0
  exact ⟨h.1, h.2.1, h.2.2.2.1, h.2.2.2.2.1, h.2.2.1, h.2.2.2.2.2⟩

/-- C2: for every state whose slack and slack-multiplier blocks are
strictly positive, and for every step and barrier size, the binary
search returns `(s, z)` in [0,1] x [0,1] such that
`fraction_to_boundary * state + s * step` has non-negative slack blocks
and `fraction_to_boundary * state + z * step` has non-negative
slack-multiplier blocks; the function is total, so it always returns a
result. -/
theorem calculate_max_step_size_spec (state step : BlockVector) (b : ℚ)
    (hpos : StrictPosSegs state) :
    0 ≤ (calculate_max_step_size state step b).1 ∧
      (calculate_max_step_size state step b).1 ≤ 1 ∧
      0 ≤ (calculate_max_step_size state step b).2 ∧
      (calculate_max_step_size state step b).2 ≤ 1 ∧
      accept_s state step b (calculate_max_step_size state step b).1 = true ∧
      accept_z state step b (calculate_max_step_size state step b).2 = true :=
  max_step_size_props state step b hpos

/-- C2 witness: the specification applied to the concrete strictly
feasible state `wState` with concrete step `wStep` and barrier 1/10. -/
theorem calculate_max_step_size_spec_witness :
    StrictPosSegs wState ∧
    (0 ≤ (calculate_max_step_size wState wStep (1 / 10)).1 ∧
      (calculate_max_step_size wState wStep (1 / 10)).1 ≤ 1 ∧
      0 ≤ (calculate_max_step_size wState wStep (1 / 10)).2 ∧
      (calculate_max_step_size wState wStep (1 / 10)).2 ≤ 1 ∧
      accept_s wState wStep (1 / 10) (calculate_max_step_size wState wStep (1 / 10)).1 = true ∧
      accept_z wState wStep (1 / 10) (calculate_max_step_size wState wStep (1 / 10)).2 = true) :=
  ⟨by norm_num [StrictPosSegs, is_positive, wState],
   calculate_max_step_size_spec wState wStep (1 / 10)
     (by norm_num [StrictPosSegs, is_positive, wState])⟩

/-- Helper: adding any (0,1] multiple of the blockwise-scaled step of
`find_max_step` to a strictly feasible state keeps the four slack and
slack-multiplier blocks strictly positive. -/
theorem positivity_of_update (state step : BlockVector) (b : ℚ) (hpos : StrictPosSegs state) :
    ∀ σ : ℚ, 0 < σ → σ ≤ 1 →
      StrictPosSegs (state + σ • scaled_max_step step
        (calculate_max_step_size state step b).1 (calculate_max_step_size state step b).2) := by
  intro σ hσ0 hσ1
  obtain ⟨hb1, hb2⟩ := fraction_to_boundary_bounds b
  have hτ0 : 0 < fraction_to_boundary b := by linarith
  have hτ1 : fraction_to_boundary b < 1 := by linarith
  obtain ⟨hls, hus, hlm, hum⟩ := hpos
  obtain ⟨-, -, -, -, hAs, hAz⟩ := max_step_size_props state step b ⟨hls, hus, hlm, hum⟩
  rw [accept_s, Bool.and_eq_true] at hAs
  rw [accept_z, Bool.and_eq_true] at hAz
  have h1 : is_non_negative (vadd (vsmul (fraction_to_boundary b) state.density_lower_slack)
      (vsmul (calculate_max_step_size state step b).1 step.density_lower_slack)) = true := hAs.1
  have h2 : is_non_negative (vadd (vsmul (fraction_to_boundary b) state.density_upper_slack)
      (vsmul (calculate_max_step_size state step b).1 step.density_upper_slack)) = true := hAs.2
  have h3 : is_non_negative (vadd (vsmul (fraction_to_boundary b) state.density_lower_slack_multiplier)
      (vsmul (calculate_max_step_size state step b).2 step.density_lower_slack_multiplier)) = true :=
    hAz.1
  have h4 : is_non_negative (vadd (vsmul (fraction_to_boundary b) state.density_upper_slack_multiplier)
      (vsmul (calculate_max_step_size state step b).2 step.density_upper_slack_multiplier)) = true :=
    hAz.2
  refine ⟨?_, ?_, ?_, ?_⟩
  · exact is_positive_convex_step (fraction_to_boundary b) (calculate_max_step_size state step b).1
      σ hτ0 hτ1 hσ0 hσ1 state.density_lower_slack step.density_lower_slack hls h1
  · exact is_positive_convex_step (fraction_to_boundary b) (calculate_max_step_size state step b).1
      σ hτ0 hτ1 hσ0 hσ1 state.density_upper_slack step.density_upper_slack hus h2
  · exact is_positive_convex_step (fraction_to_boundary b) (calculate_max_step_size state step b).2
      σ hτ0 hτ1 hσ0 hσ1 state.density_lower_slack_multiplier
      step.density_lower_slack_multiplier hlm h3
  · exact is_positive_convex_step (fraction_to_boundary b) (calculate_max_step_size state step b).2
      σ hτ0 hτ1 hσ0 hσ1 state.density_upper_slack_multiplier
      step.density_upper_slack_multiplier hum h4

/-- C10: starting from a state whose slack and slack-multiplier blocks
are strictly positive, both kinds of driver update preserve that strict
positivity: the unconditional speculative advance by any (0,1] multiple
of the blockwise-scaled step returned by `find_max_step` (the full
advance is the case of factor 1), and the acceptance of a
`take_scaled_step` result along such a step. -/
theorem driver_preserves_positivity (state step : BlockVector) (b σ dr : ℚ)
    (merit : BlockVector → ℚ) (hpos : StrictPosSegs state) (hσ0 : 0 < σ) (hσ1 : σ ≤ 1) :
    StrictPosSegs (state + σ • scaled_max_step step
      (calculate_max_step_size state step b).1 (calculate_max_step_size state step b).2) ∧
    StrictPosSegs (take_scaled_step merit state (scaled_max_step step
      (calculate_max_step_size state step b).1 (calculate_max_step_size state step b).2) dr) := by
  refine ⟨positivity_of_update state step b hpos σ hσ0 hσ1, ?_⟩
  obtain ⟨s2, hs0, hs1, heq⟩ := take_scaled_step_form merit state
    (scaled_max_step step (calculate_max_step_size state step b).1
      (calculate_max_step_size state step b).2) dr
  rw [heq]
  exact positivity_of_update state step b hpos s2 hs0 hs1

/-- C10 witness: the preservation statement applied to the concrete
strictly feasible state `wState`, step `wStep`, barrier 1/10, scale 1/2
and a constant merit function. -/
theorem driver_preserves_positivity_witness :
    StrictPosSegs wState ∧ (0 : ℚ) < 1 / 2 ∧ (1 / 2 : ℚ) ≤ 1 ∧
    (StrictPosSegs (wState + (1 / 2 : ℚ) • scaled_max_step wStep
      (calculate_max_step_size wState wStep (1 / 10)).1
      (calculate_max_step_size wState wStep (1 / 10)).2) ∧
     StrictPosSegs (take_scaled_step (fun _ => (0 : ℚ)) wState (scaled_max_step wStep
      (calculate_max_step_size wState wStep (1 / 10)).1
      (calculate_max_step_size wState wStep (1 / 10)).2) (1 / 10000))) :=
  ⟨by norm_num [StrictPosSegs, is_positive, wState], by norm_num, by norm_num,
   driver_preserves_positivity wState wStep (1 / 10) (1 / 2) (1 / 10000) (fun _ => (0 : ℚ))
     (by norm_num [StrictPosSegs, is_positive, wState]) (by norm_num) (by norm_num)⟩

/-- Helper: addition on block vectors unfolds to the blockwise sum. -/
theorem BlockVector.add_eq (a b : BlockVector) : a + b = BlockVector.add a b := rfl

/-- Helper: scalar action on block vectors unfolds to the blockwise
scaling. -/
theorem BlockVector.smul_eq (c : ℚ) (a : BlockVector) : c • a = BlockVector.smul c a := rfl

/-- C1 amended: in a watchdog cycle, if none of the 8 speculative uphill
steps satisfies the goal-merit test, and the merit of the state reached
by the uphill steps is below the merit of the watchdog state OR the
merit of the backtracked stretch state is below the goal merit, then the
controller accepts the stretch state and the consumed iteration budget
is exactly 9.  (The claim's hypothesis, merit of the stretch state below
the merit of the watchdog state, is neither of these and does not force
acceptance of the stretch state.) -/
theorem watchdog_accepts_stretch (findStep : BlockVector → BlockVector)
    (merit : BlockVector → ℚ) (dr : ℚ) (start current : BlockVector)
    (hex : uphill_loop findStep merit (wd_goal findStep merit dr start) 8 0 start
      = (current, none))
    (hacc : merit current < merit start ∨
      merit (take_scaled_step merit current (findStep current) dr) <
        wd_goal findStep merit dr start) :
    watchdog_cycle findStep merit dr start =
      (take_scaled_step merit current (findStep current) dr, 9) := by
  unfold watchdog_cycle
  rw [hex]
  exact if_pos hacc

set_option maxHeartbeats 2000000 in
/-- C1 counterexample: a concrete scenario in which all 8 uphill steps
fail the goal-merit test and the backtracked stretch state (density 9,
merit 7) has merit strictly below the watchdog state (density 0, merit
10), yet the controller does not accept the stretch state: the stretch
merit is not below the goal merit (5) and the current merit is not below
the watchdog merit, so the code takes the third cascade branch, accepts
a freshly scaled step from the stretch state (density 10) and records 10
iterations, not 9. -/
theorem watchdog_stretch_below_not_sufficient :
    (uphill_loop cFindStep cMerit (wd_goal cFindStep cMerit (1 / 10000) (cBV 0)) 8 0 (cBV 0)
       = (cBV 8, none)) ∧
    take_scaled_step cMerit (cBV 8) (cFindStep (cBV 8)) (1 / 10000) = cBV 9 ∧
    cMerit (cBV 9) < cMerit (cBV 0) ∧
    watchdog_cycle cFindStep cMerit (1 / 10000) (cBV 0) = (cBV 10, 10) ∧
    (cBV 10, (10 : Nat)) ≠ (cBV 9, (9 : Nat)) := by
  refine ⟨?_, ?_, ?_, ?_, ?_⟩
  · norm_num [uphill_loop, wd_goal, merit_derivative, cFindStep, cBV, cMerit, cMeritVal,
      BlockVector.add_eq, BlockVector.smul_eq, BlockVector.add, BlockVector.smul, vadd, vsmul]
  · norm_num [take_scaled_step, scaled_loop, armijo_test, merit_derivative, cFindStep, cBV,
      cMerit, cMeritVal, BlockVector.add_eq, BlockVector.smul_eq, BlockVector.add,
      BlockVector.smul, vadd, vsmul]
  · norm_num [cBV, cMerit, cMeritVal]
  · norm_num [watchdog_cycle, uphill_loop, wd_goal, merit_derivative, take_scaled_step,
      scaled_loop, armijo_test, cFindStep, cBV, cMerit, cMeritVal, BlockVector.add_eq,
      BlockVector.smul_eq, BlockVector.add, BlockVector.smul, vadd, vsmul]
  · norm_num [cBV]

set_option maxHeartbeats 2000000 in
/-- C1 amended witness: a concrete scenario (merit profile dipping to 4
at density 9, below the goal merit 5) in which the uphill loop exhausts,
the stretch-state merit is below the goal merit, and the controller
accepts the stretch state with cost 9. -/
theorem watchdog_accepts_stretch_witness :
    (uphill_loop cFindStep cMerit2 (wd_goal cFindStep cMerit2 (1 / 10000) (cBV 0)) 8 0 (cBV 0)
       = (cBV 8, none)) ∧
    cMerit2 (take_scaled_step cMerit2 (cBV 8) (cFindStep (cBV 8)) (1 / 10000)) <
      wd_goal cFindStep cMerit2 (1 / 10000) (cBV 0) ∧
    watchdog_cycle cFindStep cMerit2 (1 / 10000) (cBV 0) =
      (take_scaled_step cMerit2 (cBV 8) (cFindStep (cBV 8)) (1 / 10000), 9) := by
  have hex : uphill_loop cFindStep cMerit2 (wd_goal cFindStep cMerit2 (1 / 10000) (cBV 0))
      8 0 (cBV 0) = (cBV 8, none) := by
    norm_num [uphill_loop, wd_goal, merit_derivative, cFindStep, cBV, cMerit2, cMeritVal2,
      BlockVector.add_eq, BlockVector.smul_eq, BlockVector.add, BlockVector.smul, vadd, vsmul]
  have hlt : cMerit2 (take_scaled_step cMerit2 (cBV 8) (cFindStep (cBV 8)) (1 / 10000)) <
      wd_goal cFindStep cMerit2 (1 / 10000) (cBV 0) := by
    norm_num [take_scaled_step, scaled_loop, armijo_test, wd_goal, merit_derivative, cFindStep,
      cBV, cMerit2, cMeritVal2, BlockVector.add_eq, BlockVector.smul_eq, BlockVector.add,
      BlockVector.smul, vadd, vsmul]
  exact ⟨hex, hlt,
    watchdog_accepts_stretch cFindStep cMerit2 (1 / 10000) (cBV 0) (cBV 8) hex (Or.inr hlt)⟩

end SAND
